import Mathlib

/-!
Verification of the WebRTC session/connection manager of
`src/hooks/useWebRTC.ts` (the `useWebRTC` hook), shallowly embedded in Lean.

The mutable React state of the hook is modelled as one record `HookState`; every
socket handler and callback of the hook becomes a pure state transformer.
JavaScript `Map`s are modelled as association lists with the exact `Map`
semantics (`set` replaces in place keeping order, inserts new keys at the
end; `get` finds the unique entry; `delete` removes it).  Asynchronous
operations that can reject (`setRemoteDescription`, `addIceCandidate`) are
modelled with `Except`; a handler returns `Option NegotiationError × HookState`
where a `some` first component means the rejection escaped the handler
(the source has no `try`/`catch` around these awaits).  Outbound
`socket.emit` calls are recorded in a `sent` log.
-/

set_option autoImplicit false

namespace MeetJarvis

/-- Kind of a media track in a `MediaStream` (`getAudioTracks` /
`getVideoTracks` select by kind). -/
inductive TrackKind where
  | audio
  | video
deriving DecidableEq, Repr

/-- A `MediaStreamTrack`: its kind, its `enabled` flag (flipped by the
toggle callbacks) and whether `stop()` has been called on it. -/
structure MediaTrack where
  kind : TrackKind
  enabled : Bool
  stopped : Bool
deriving DecidableEq, Repr

/-- A `MediaStream` handle.  `sid` models JavaScript object identity: the
hook mutates tracks of the stream in place, so the handle (and its `sid`)
is unchanged by toggling; a new acquisition yields a new `sid`. -/
structure MediaStream where
  sid : Nat
  tracks : List MediaTrack
deriving DecidableEq, Repr

/-- Kind of a session description (`offer` / `answer`). -/
inductive SdpKind where
  | offer
  | answer
deriving DecidableEq, Repr

/-- A session description as exchanged over the signaling channel.
`wellFormed` abstracts whether the SDP parses; `setRemoteDescription`
rejects a malformed description. -/
structure Sdp where
  kind : SdpKind
  wellFormed : Bool
deriving DecidableEq, Repr

/-- An ICE candidate payload. -/
structure IceCand where
  payload : String
deriving DecidableEq, Repr

/-- Rejections of the peer-connection primitives (the `NegotiationError` taxonomy of the spec): a malformed description, a description
arriving in the wrong signaling state, or `addIceCandidate` called while
no remote description is set (`InvalidStateError` in the platform). -/
inductive NegotiationError where
  | malformedSdp
  | unexpectedSdp
  | noRemoteDescription
deriving DecidableEq, Repr

/-- An `RTCPeerConnection` as the hook uses it: the local tracks added via
`addTrack`, the local and remote descriptions, the candidates successfully
passed to `addIceCandidate`, and whether `close()` was called. -/
structure RTCPeerConnection where
  localTracks : List MediaTrack
  localDescription : Option Sdp
  remoteDescription : Option Sdp
  addedCandidates : List IceCand
  closed : Bool
deriving DecidableEq, Repr

/-- Model of `new RTCPeerConnection(PC_CONFIG)` (the STUN configuration has no
observable effect in this model). -/
def newPeerConnection : RTCPeerConnection :=
  { localTracks := []
    localDescription := none
    remoteDescription := none
    addedCandidates := []
    closed := false }

/-- Model of `pc.setRemoteDescription(sdp)`: rejects on a malformed description, or
on an answer while no local offer is pending; otherwise stores the remote
description. -/
def setRemoteDescription (pc : RTCPeerConnection) (sdp : Sdp) :
    Except NegotiationError RTCPeerConnection :=
  if sdp.wellFormed = false then .error .malformedSdp
  else if sdp.kind = .answer ∧ pc.localDescription = none then .error .unexpectedSdp
  else .ok { pc with remoteDescription := some sdp }

/-- Model of `pc.addIceCandidate(c)`: rejects with `InvalidStateError` when no remote
description has been set (the platform does not buffer such candidates for
the caller); otherwise the candidate is added to the connection. -/
def addIceCandidate (pc : RTCPeerConnection) (c : IceCand) :
    Except NegotiationError RTCPeerConnection :=
  if pc.remoteDescription = none then .error .noRemoteDescription
  else .ok { pc with addedCandidates := pc.addedCandidates ++ [c] }

/-- The `Participant` interface of the hook. -/
structure Participant where
  id : String
  name : String
  socketId : String
  stream : Option MediaStream
  audioEnabled : Bool
  videoEnabled : Bool
deriving DecidableEq, Repr

/-- One outbound `socket.emit(...)` of the hook. -/
inductive OutEvent where
  | offerMsg (target : String) (sdp : Sdp)
  | answerMsg (target : String) (sdp : Sdp)
  | iceMsg (target : String) (c : IceCand)
  | toggleAudioMsg (enabled : Bool)
  | toggleVideoMsg (enabled : Bool)
deriving DecidableEq, Repr

/-- Model of `Map.prototype.get`. -/
def mapGet {α : Type} (m : List (String × α)) (k : String) : Option α :=
  match m with
  | [] => none
  | (k', v) :: rest => if k' = k then some v else mapGet rest k

/-- Model of `Map.prototype.set`: replaces the entry in place when the key is
present, otherwise appends the new entry. -/
def mapSet {α : Type} (m : List (String × α)) (k : String) (v : α) :
    List (String × α) :=
  match m with
  | [] => [(k, v)]
  | (k', v') :: rest => if k' = k then (k, v) :: rest else (k', v') :: mapSet rest k v

/-- Model of `Map.prototype.delete` (keys are unique, so deleting the first match
is the whole effect). -/
def mapDelete {α : Type} (m : List (String × α)) (k : String) :
    List (String × α) :=
  match m with
  | [] => []
  | (k', v') :: rest => if k' = k then rest else (k', v') :: mapDelete rest k

/-- The state of the hook: the `participants` map, `localStream`,
`isAudioEnabled` / `isVideoEnabled` / `isConnected` flags, whether
`socketRef.current` is non-null, the `peerConnectionsRef` map, the
initialization guard ref, a count of `getUserMedia` acquisitions (to state
"no reacquisition"), and the log of emitted socket events. -/
structure HookState where
  participants : List (String × Participant)
  localStream : Option MediaStream
  isAudioEnabled : Bool
  isVideoEnabled : Bool
  isConnected : Bool
  socketConnected : Bool
  peerConnections : List (String × RTCPeerConnection)
  initRef : Bool
  acquireCount : Nat
  sent : List OutEvent
deriving DecidableEq, Repr

/-- Model of `participants: Array.from(participants.values())` — the read model
returned by the hook. -/
def listParticipants (s : HookState) : List Participant :=
  s.participants.map Prod.snd

/-- Model of `initializeMedia`: reuses the existing stream when one is present;
otherwise acquires `fresh` (success path of `getUserMedia`), storing it and
counting the acquisition. -/
def initMedia (fresh : MediaStream) (s : HookState) : MediaStream × HookState :=
  match s.localStream with
  | some st => (st, s)
  | none =>
    (fresh, { s with localStream := some fresh, acquireCount := s.acquireCount + 1 })

/-- The offer produced by `pc.createOffer()` (always well formed). -/
def localOfferSdp : Sdp := { kind := .offer, wellFormed := true }

/-- The answer produced by `pc.createAnswer()` (always well formed). -/
def localAnswerSdp : Sdp := { kind := .answer, wellFormed := true }

/-- The connection `createOffer` builds for a peer: a fresh connection with
the tracks of the local stream added and the local offer set — the shape of an
initiator-role session. -/
def initiatorPC (stream : MediaStream) : RTCPeerConnection :=
  { newPeerConnection with
      localTracks := stream.tracks
      localDescription := some localOfferSdp }

/-- Model of `createOffer(participantSocketId, stream)`: creates a peer connection,
registers it, adds the tracks of the stream, sets the local offer, and emits an
`offer` to the target when the socket is present. -/
def createOffer (participantSocketId : String) (stream : MediaStream)
    (s : HookState) : HookState :=
  let s1 := { s with
    peerConnections := mapSet s.peerConnections participantSocketId (initiatorPC stream) }
  if s1.socketConnected then
    { s1 with sent := s1.sent ++ [OutEvent.offerMsg participantSocketId localOfferSdp] }
  else s1

/-- The tracks `handleOffer` adds to its fresh connection: those of the
local stream when it is set, none otherwise. -/
def localTracksOf (s : HookState) : List MediaTrack :=
  match s.localStream with
  | some st => st.tracks
  | none => []

/-- Model of the handler `handleOffer`: creates and registers a fresh connection
for the sender (replacing any existing one), adds the local tracks, applies
the remote offer, produces and sets the local answer, and emits an `answer`.
A rejection of `setRemoteDescription` escapes (first component `some _`)
with the fresh connection left registered, as in the source (no catch). -/
def handleOffer (sender : String) (offer : Sdp) (s : HookState) :
    Option NegotiationError × HookState :=
  let pc := { newPeerConnection with localTracks := localTracksOf s }
  let s1 := { s with peerConnections := mapSet s.peerConnections sender pc }
  match setRemoteDescription pc offer with
  | .error e => (some e, s1)
  | .ok pc1 =>
    let pc2 := { pc1 with localDescription := some localAnswerSdp }
    let s2 := { s1 with peerConnections := mapSet s1.peerConnections sender pc2 }
    if s2.socketConnected then
      (none, { s2 with sent := s2.sent ++ [OutEvent.answerMsg sender localAnswerSdp] })
    else (none, s2)

/-- Model of the handler `handleAnswer`: looks the sender up in
`peerConnectionsRef`; when absent, does nothing; when present, applies the
remote description, a rejection escaping unchanged state. -/
def handleAnswer (sender : String) (answer : Sdp) (s : HookState) :
    Option NegotiationError × HookState :=
  match mapGet s.peerConnections sender with
  | none => (none, s)
  | some pc =>
    match setRemoteDescription pc answer with
    | .error e => (some e, s)
    | .ok pc1 =>
      (none, { s with peerConnections := mapSet s.peerConnections sender pc1 })

/-- Model of the handler `handleIceCandidate`: looks the sender up in
`peerConnectionsRef`; when absent, the candidate is dropped; when present,
`addIceCandidate` is called immediately (there is no buffering queue in the
source), a rejection escaping with unchanged state. -/
def handleIceCandidate (sender : String) (c : IceCand) (s : HookState) :
    Option NegotiationError × HookState :=
  match mapGet s.peerConnections sender with
  | none => (none, s)
  | some pc =>
    match addIceCandidate pc c with
    | .error e => (some e, s)
    | .ok pc1 =>
      (none, { s with peerConnections := mapSet s.peerConnections sender pc1 })

/-- First track of the given kind (`getAudioTracks()[0]` /
`getVideoTracks()[0]`). -/
def firstTrack (k : TrackKind) : List MediaTrack → Option MediaTrack
  | [] => none
  | t :: rest => if t.kind = k then some t else firstTrack k rest

/-- In-place flip of the `enabled` flag of the first track of the given
kind (`track.enabled = !track.enabled` mutates the track held by the stream). -/
def flipFirstTrack (k : TrackKind) : List MediaTrack → List MediaTrack
  | [] => []
  | t :: rest =>
    if t.kind = k then { t with enabled := !t.enabled } :: rest
    else t :: flipFirstTrack k rest

/-- Model of `toggleAudio`: when a local stream with an audio track exists, flips the
`enabled` flag of the track, mirrors it into `isAudioEnabled`, and emits a
`toggle-audio` event; otherwise does nothing. -/
def toggleAudio (s : HookState) : HookState :=
  match s.localStream with
  | none => s
  | some stream =>
    match firstTrack .audio stream.tracks with
    | none => s
    | some t =>
      let s1 := { s with
        localStream := some { stream with tracks := flipFirstTrack .audio stream.tracks }
        isAudioEnabled := !t.enabled }
      if s1.socketConnected then
        { s1 with sent := s1.sent ++ [OutEvent.toggleAudioMsg (!t.enabled)] }
      else s1

/-- Model of `toggleVideo`: the video counterpart of `toggleAudio`. -/
def toggleVideo (s : HookState) : HookState :=
  match s.localStream with
  | none => s
  | some stream =>
    match firstTrack .video stream.tracks with
    | none => s
    | some t =>
      let s1 := { s with
        localStream := some { stream with tracks := flipFirstTrack .video stream.tracks }
        isVideoEnabled := !t.enabled }
      if s1.socketConnected then
        { s1 with sent := s1.sent ++ [OutEvent.toggleVideoMsg (!t.enabled)] }
      else s1

/-- Model of `leaveRoom`: closes and clears every peer connection, stops and drops
the local stream when present, disconnects the socket when present, empties
the participants map and resets the flags.  (A closed connection removed
from the cleared registry leaves no observable state.) -/
def leaveRoom (s : HookState) : HookState :=
  let s1 := { s with peerConnections := [] }
  let s2 :=
    match s1.localStream with
    | some _ => { s1 with localStream := none }
    | none => s1
  let s3 :=
    if s2.socketConnected then { s2 with socketConnected := false } else s2
  { s3 with participants := [], isConnected := false, initRef := false }

/-- The `forEach` loop of the `room-participants` handler: builds the fresh
participants map (normalizing `audioEnabled`/`videoEnabled` to `true`) and
calls `createOffer` for each listed participant, in list order. -/
def rosterLoop (existing : List Participant) (stream : MediaStream)
    (pm : List (String × Participant)) (s : HookState) :
    List (String × Participant) × HookState :=
  match existing with
  | [] => (pm, s)
  | p :: rest =>
    rosterLoop rest stream
      (mapSet pm p.socketId { p with audioEnabled := true, videoEnabled := true })
      (createOffer p.socketId stream s)

/-- The `room-participants` handler: runs the loop from an empty map and
replaces the participants state with the freshly built map
(`setParticipants(participantsMap)`). -/
def handleRoomParticipants (existing : List Participant) (stream : MediaStream)
    (s : HookState) : HookState :=
  let r := rosterLoop existing stream [] s
  { r.2 with participants := r.1 }

/-- The `user-joined` handler: inserts the joiner into the participants
map with `audioEnabled`/`videoEnabled` normalized to `true`.  No peer
connection is created and nothing is emitted — the joining side initiates. -/
def handleUserJoined (p : Participant) (s : HookState) : HookState :=
  { s with participants :=
      mapSet s.participants p.socketId { p with audioEnabled := true, videoEnabled := true } }

/-- Model of `Array.from(updated.values()).find(p => p.id === participantId)` — the
lookup of the `user-left` handler, by user id (not by socket id). -/
def findByUserId (participantId : String) :
    List (String × Participant) → Option Participant
  | [] => none
  | (_, p) :: rest =>
    if p.id = participantId then some p else findByUserId participantId rest

/-- The `user-left` handler: finds the participant whose `id` matches;
when found, closes and deletes their peer connection (when one exists) and
deletes the participant; when no participant matches, the state is
unchanged. -/
def handleUserLeft (participantId : String) (s : HookState) : HookState :=
  match findByUserId participantId s.participants with
  | none => s
  | some p =>
    let s1 :=
      match mapGet s.peerConnections p.socketId with
      | some _ => { s with peerConnections := mapDelete s.peerConnections p.socketId }
      | none => s
    { s1 with participants := mapDelete s1.participants p.socketId }

/-- There is no audio track to toggle: no local stream, or a stream with no
audio track. -/
def noAudioTrack (s : HookState) : Bool :=
  match s.localStream with
  | none => true
  | some st => (firstTrack .audio st.tracks).isNone

/-- There is no video track to toggle: no local stream, or a stream with no
video track. -/
def noVideoTrack (s : HookState) : Bool :=
  match s.localStream with
  | none => true
  | some st => (firstTrack .video st.tracks).isNone

/-- Flag synchronization: `isAudioEnabled` agrees with the `enabled` flag
of the first audio track (vacuously when there is none) — the reachable-state invariant of the hook,
which initializes both to `true` and updates them together. -/
def audioSynced (s : HookState) : Bool :=
  match s.localStream with
  | none => true
  | some st =>
    match firstTrack .audio st.tracks with
    | none => true
    | some t => s.isAudioEnabled == t.enabled

/-- A concrete local stream used by the concrete scenarios below. -/
def demoStream : MediaStream :=
  { sid := 0, tracks := [{ kind := .audio, enabled := true, stopped := false }] }

/-- The initiator-side state right after `createOffer` toward peer `"s1"`:
the connection is registered with the local offer set and the remote
description not yet set (the answer has not arrived). -/
def awaitingAnswerState : HookState :=
  { participants := [("s1", { id := "P1", name := "P1", socketId := "s1",
                              stream := none, audioEnabled := true, videoEnabled := true })]
    localStream := some demoStream
    isAudioEnabled := true, isVideoEnabled := true, isConnected := true
    socketConnected := true
    peerConnections := [("s1", initiatorPC demoStream)]
    initRef := true, acquireCount := 1
    sent := [OutEvent.offerMsg "s1" localOfferSdp] }

/-- The state of local participant `"a"` after it initiated toward
participant `"b"` (socket `"sb"`): the simultaneous-initiation (glare)
scenario, seen from the side with the lexicographically smaller id. -/
def glareStateA : HookState :=
  { participants := [("sb", { id := "b", name := "B", socketId := "sb",
                              stream := none, audioEnabled := true, videoEnabled := true })]
    localStream := some demoStream
    isAudioEnabled := true, isVideoEnabled := true, isConnected := true
    socketConnected := true
    peerConnections := [("sb", initiatorPC demoStream)]
    initRef := true, acquireCount := 1
    sent := [OutEvent.offerMsg "sb" localOfferSdp] }

/-- A malformed answer (one that fails to parse). -/
def badAnswer : Sdp := { kind := SdpKind.answer, wellFormed := false }

/-- Two negotiating sessions: `"s1"` and its sibling `"s2"`, both initiator
side awaiting answers. -/
def twoSessionState : HookState :=
  { participants :=
      [("s1", { id := "P1", name := "P1", socketId := "s1", stream := none,
                audioEnabled := true, videoEnabled := true }),
       ("s2", { id := "P2", name := "P2", socketId := "s2", stream := none,
                audioEnabled := true, videoEnabled := true })]
    localStream := some demoStream
    isAudioEnabled := true, isVideoEnabled := true, isConnected := true
    socketConnected := true
    peerConnections := [("s1", initiatorPC demoStream), ("s2", initiatorPC demoStream)]
    initRef := true, acquireCount := 1
    sent := [OutEvent.offerMsg "s1" localOfferSdp, OutEvent.offerMsg "s2" localOfferSdp] }

section MapLemmas

variable {α : Type}

theorem mapGet_mapSet_self (m : List (String × α)) (k : String) (v : α) :
    mapGet (mapSet m k v) k = some v := by
  induction m with
  | nil => simp [mapGet, mapSet]
  | cons hd tl ih =>
    obtain ⟨k', v'⟩ := hd
    by_cases h : k' = k
    · simp [mapGet, mapSet, h]
    · simp [mapGet, mapSet, h, ih]

theorem mapGet_mapSet_ne (m : List (String × α)) (k k' : String) (v : α)
    (h : k' ≠ k) : mapGet (mapSet m k v) k' = mapGet m k' := by
  have hk : ¬ k = k' := fun hh => h hh.symm
  induction m with
  | nil =>
    simp only [mapSet, mapGet]
    rw [if_neg hk]
  | cons hd tl ih =>
    obtain ⟨k0, v0⟩ := hd
    by_cases h0 : k0 = k
    · subst h0
      simp only [mapSet, if_pos rfl, mapGet]
      rw [if_neg hk, if_neg hk]
    · simp only [mapSet, if_neg h0, mapGet]
      by_cases h1 : k0 = k'
      · rw [if_pos h1, if_pos h1]
      · rw [if_neg h1, if_neg h1, ih]

theorem mapSet_of_get_none (m : List (String × α)) (k : String) (v : α)
    (h : mapGet m k = none) : mapSet m k v = m ++ [(k, v)] := by
  induction m with
  | nil => simp [mapSet]
  | cons hd tl ih =>
    obtain ⟨k0, v0⟩ := hd
    by_cases h0 : k0 = k
    · simp [mapGet, h0] at h
    · simp only [mapGet, if_neg h0] at h
      simp [mapSet, h0, ih h]

end MapLemmas

theorem findByUserId_eq_none (participantId : String)
    (m : List (String × Participant))
    (h : ∀ q ∈ m, (Prod.snd q).id ≠ participantId) :
    findByUserId participantId m = none := by
  induction m with
  | nil => rfl
  | cons hd tl ih =>
    obtain ⟨k, p⟩ := hd
    have hp : p.id ≠ participantId := h (k, p) (List.mem_cons_self _ _)
    simp only [findByUserId, if_neg hp]
    exact ih fun q hq => h q (List.mem_cons_of_mem _ hq)

theorem leaveRoom_eq (s : HookState) :
    leaveRoom s =
      { s with participants := [], localStream := none, isConnected := false,
               socketConnected := false, peerConnections := [], initRef := false } := by
  obtain ⟨ps, ls, a, v, c, sock, pcs, ini, ac, snt⟩ := s
  cases ls <;> cases sock <;> rfl

/-- C4: `leaveRoom` is idempotent — it never throws (it is a total state
transformer), the state after two consecutive calls equals the state after
one, and after one call every session is gone from the registry, the media
handle is released, and the transport is disconnected. -/
theorem leaveRoom_idempotent (s : HookState) :
    leaveRoom (leaveRoom s) = leaveRoom s ∧
    (leaveRoom s).peerConnections = [] ∧
    (leaveRoom s).localStream = none ∧
    (leaveRoom s).socketConnected = false ∧
    (leaveRoom s).participants = [] := by
  simp [leaveRoom_eq]

/-- C4 witness: idempotence at a concrete populated state. -/
theorem leaveRoom_idempotent_witness :
    leaveRoom (leaveRoom twoSessionState) = leaveRoom twoSessionState :=
  (leaveRoom_idempotent twoSessionState).1

/-- C6: a `user-left` event whose identifier matches the `id` of no participant
is a no-op — the handler is total (never throws) and returns the state
unchanged: registry, participants and everything else. -/
theorem userLeft_unknown_noop (participantId : String) (s : HookState)
    (h : ∀ q ∈ s.participants, (Prod.snd q).id ≠ participantId) :
    handleUserLeft participantId s = s := by
  unfold handleUserLeft
  rw [findByUserId_eq_none participantId s.participants h]

/-- C6 witness: a concrete two-participant state where the departing id is
unknown. -/
theorem userLeft_unknown_noop_witness :
    handleUserLeft "ghost"
      { participants := [("s1", { id := "P1", name := "P1", socketId := "s1",
                                  stream := none, audioEnabled := true, videoEnabled := true })]
        localStream := none, isAudioEnabled := true, isVideoEnabled := true
        isConnected := true, socketConnected := true
        peerConnections := [], initRef := true, acquireCount := 1, sent := [] } =
      { participants := [("s1", { id := "P1", name := "P1", socketId := "s1",
                                  stream := none, audioEnabled := true, videoEnabled := true })]
        localStream := none, isAudioEnabled := true, isVideoEnabled := true
        isConnected := true, socketConnected := true
        peerConnections := [], initRef := true, acquireCount := 1, sent := [] } :=
  userLeft_unknown_noop "ghost" _ (by decide)

/-- C8: a `user-joined` event creates exactly one registry entry for the
joiner (appended to the participants map, every other key unchanged), and
the local side does not initiate: no peer connection is created and no
offer (nor any other event) is emitted — the local side waits for the
offer of the joiner, i.e. acts as responder. -/
theorem userJoined_responder (p : Participant) (s : HookState)
    (h : mapGet s.participants p.socketId = none) :
    (handleUserJoined p s).participants =
      s.participants ++ [(p.socketId, { p with audioEnabled := true, videoEnabled := true })] ∧
    (handleUserJoined p s).peerConnections = s.peerConnections ∧
    (handleUserJoined p s).sent = s.sent ∧
    mapGet (handleUserJoined p s).participants p.socketId =
      some { p with audioEnabled := true, videoEnabled := true } ∧
    (listParticipants (handleUserJoined p s)).length = (listParticipants s).length + 1 := by
  refine ⟨?_, rfl, rfl, ?_, ?_⟩
  · simp [handleUserJoined, mapSet_of_get_none _ _ _ h]
  · simp [handleUserJoined, mapGet_mapSet_self]
  · simp [handleUserJoined, listParticipants, mapSet_of_get_none _ _ _ h]

/-- C8 witness: a joiner arriving into a one-participant room. -/
theorem userJoined_responder_witness :
    (handleUserJoined
        { id := "P2", name := "P2", socketId := "s2", stream := none,
          audioEnabled := false, videoEnabled := false }
        { participants := [("s1", { id := "P1", name := "P1", socketId := "s1",
                                    stream := none, audioEnabled := true, videoEnabled := true })]
          localStream := none, isAudioEnabled := true, isVideoEnabled := true
          isConnected := true, socketConnected := true
          peerConnections := [], initRef := true, acquireCount := 1,
          sent := [] }).sent = [] := by
  have h := userJoined_responder
    { id := "P2", name := "P2", socketId := "s2", stream := none,
      audioEnabled := false, videoEnabled := false }
    { participants := [("s1", { id := "P1", name := "P1", socketId := "s1",
                                stream := none, audioEnabled := true, videoEnabled := true })]
      localStream := none, isAudioEnabled := true, isVideoEnabled := true
      isConnected := true, socketConnected := true
      peerConnections := [], initRef := true, acquireCount := 1, sent := [] }
    (by decide)
  exact h.2.2.1

/-- C9: an `answer` or `ice-candidate` whose sender has no entry in the
peer-connection registry completes without error (`none`), creates nothing
and leaves the whole state unchanged. -/
theorem unknown_sender_noop (sender : String) (answer : Sdp) (c : IceCand)
    (s : HookState) (h : mapGet s.peerConnections sender = none) :
    handleAnswer sender answer s = (none, s) ∧
    handleIceCandidate sender c s = (none, s) := by
  constructor
  · unfold handleAnswer
    rw [h]
  · unfold handleIceCandidate
    rw [h]

/-- C9 witness: a state with one registered peer and an event from an
unregistered sender. -/
theorem unknown_sender_noop_witness :
    handleAnswer "s9" localAnswerSdp
      { participants := [], localStream := none, isAudioEnabled := true
        isVideoEnabled := true, isConnected := true, socketConnected := true
        peerConnections := [("s1", newPeerConnection)], initRef := true
        acquireCount := 1, sent := [] } =
      (none,
       { participants := [], localStream := none, isAudioEnabled := true
         isVideoEnabled := true, isConnected := true, socketConnected := true
         peerConnections := [("s1", newPeerConnection)], initRef := true
         acquireCount := 1, sent := [] }) :=
  (unknown_sender_noop "s9" localAnswerSdp { payload := "c" } _ (by decide)).1

/-- C10: toggling audio (resp. video) before media is acquired, or when the
stream has no audio (resp. video) track, changes nothing — flags, media
handle, registry and emit log are all unchanged. -/
theorem toggle_without_track_noop (s : HookState) :
    (noAudioTrack s = true → toggleAudio s = s) ∧
    (noVideoTrack s = true → toggleVideo s = s) := by
  constructor
  · intro h
    unfold noAudioTrack at h
    cases hls : s.localStream with
    | none => simp [toggleAudio, hls]
    | some st =>
      rw [hls] at h
      simp only [Option.isNone_iff_eq_none] at h
      simp [toggleAudio, hls, h]
  · intro h
    unfold noVideoTrack at h
    cases hls : s.localStream with
    | none => simp [toggleVideo, hls]
    | some st =>
      rw [hls] at h
      simp only [Option.isNone_iff_eq_none] at h
      simp [toggleVideo, hls, h]

/-- C10 witness: before media is acquired, both toggles are no-ops. -/
theorem toggle_without_track_noop_witness :
    toggleAudio
      { participants := [], localStream := none, isAudioEnabled := true
        isVideoEnabled := true, isConnected := false, socketConnected := true
        peerConnections := [], initRef := true, acquireCount := 0, sent := [] } =
      { participants := [], localStream := none, isAudioEnabled := true
        isVideoEnabled := true, isConnected := false, socketConnected := true
        peerConnections := [], initRef := true, acquireCount := 0, sent := [] } :=
  (toggle_without_track_noop _).1 (by decide)

theorem firstTrack_flipFirstTrack (k : TrackKind) (ts : List MediaTrack)
    (t : MediaTrack) (h : firstTrack k ts = some t) :
    firstTrack k (flipFirstTrack k ts) = some { t with enabled := !t.enabled } := by
  induction ts with
  | nil => simp [firstTrack] at h
  | cons hd tl ih =>
    by_cases hk : hd.kind = k
    · simp only [firstTrack, if_pos hk, Option.some.injEq] at h
      subst h
      simp [flipFirstTrack, firstTrack, hk]
    · simp only [firstTrack, if_neg hk] at h
      simp [flipFirstTrack, firstTrack, hk, ih h]

theorem flipFirstTrack_flipFirstTrack (k : TrackKind) (ts : List MediaTrack) :
    flipFirstTrack k (flipFirstTrack k ts) = ts := by
  induction ts with
  | nil => rfl
  | cons hd tl ih =>
    obtain ⟨hdk, hde, hds⟩ := hd
    by_cases hk : hdk = k
    · subst hk
      simp [flipFirstTrack]
    · simp [flipFirstTrack, hk, ih]

theorem toggleAudio_fields (s : HookState) (st : MediaStream) (t : MediaTrack)
    (hls : s.localStream = some st) (hft : firstTrack .audio st.tracks = some t) :
    (toggleAudio s).localStream
        = some { st with tracks := flipFirstTrack .audio st.tracks } ∧
    (toggleAudio s).isAudioEnabled = !t.enabled ∧
    (toggleAudio s).acquireCount = s.acquireCount := by
  by_cases hs : s.socketConnected = true <;>
    simp [toggleAudio, hls, hft, hs]

/-- C5: in a state where local media is acquired, has an audio track, and
the `isAudioEnabled` flag mirrors the track (the reachable-state
invariant of the hook), toggling audio twice restores the flag and the track state, the
media handle is the identical object throughout (same stream, same `sid`),
and no reacquisition happens (the acquisition count is unchanged after each
toggle). -/
theorem toggleAudio_twice_restores (s : HookState) (h : audioSynced s = true) :
    (toggleAudio (toggleAudio s)).localStream = s.localStream ∧
    (toggleAudio (toggleAudio s)).isAudioEnabled = s.isAudioEnabled ∧
    Option.map MediaStream.sid (toggleAudio s).localStream
      = Option.map MediaStream.sid s.localStream ∧
    (toggleAudio s).acquireCount = s.acquireCount ∧
    (toggleAudio (toggleAudio s)).acquireCount = s.acquireCount := by
  cases hls : s.localStream with
  | none =>
    have e : toggleAudio s = s := by simp [toggleAudio, hls]
    simp [e, hls]
  | some st =>
    cases hft : firstTrack .audio st.tracks with
    | none =>
      have e : toggleAudio s = s := by simp [toggleAudio, hls, hft]
      simp [e, hls]
    | some t =>
      have hsync : s.isAudioEnabled = t.enabled := by
        unfold audioSynced at h
        rw [hls] at h
        simp only [hft, beq_iff_eq] at h
        exact h
      obtain ⟨e1, e2, e3⟩ := toggleAudio_fields s st t hls hft
      have hft2 := firstTrack_flipFirstTrack .audio st.tracks t hft
      obtain ⟨f1, f2, f3⟩ := toggleAudio_fields (toggleAudio s) _ _ e1 hft2
      refine ⟨?_, ?_, ?_, e3, ?_⟩
      · rw [f1]
        simp [flipFirstTrack_flipFirstTrack]
      · rw [f2, hsync]
        simp
      · rw [e1]
        simp
      · rw [f3, e3]

/-- C5 witness: a concrete acquired stream with one audio and one video
track, flag in sync. -/
theorem toggleAudio_twice_restores_witness :
    (toggleAudio (toggleAudio
      { participants := [], localStream := some { sid := 5, tracks :=
          [{ kind := .audio, enabled := true, stopped := false },
           { kind := .video, enabled := true, stopped := false }] }
        isAudioEnabled := true, isVideoEnabled := true, isConnected := true
        socketConnected := true, peerConnections := [], initRef := true
        acquireCount := 1, sent := [] })).localStream =
      some { sid := 5, tracks :=
          [{ kind := .audio, enabled := true, stopped := false },
           { kind := .video, enabled := true, stopped := false }] } :=
  (toggleAudio_twice_restores
      { participants := [], localStream := some { sid := 5, tracks :=
          [{ kind := .audio, enabled := true, stopped := false },
           { kind := .video, enabled := true, stopped := false }] }
        isAudioEnabled := true, isVideoEnabled := true, isConnected := true
        socketConnected := true, peerConnections := [], initRef := true
        acquireCount := 1, sent := [] } (by decide)).1

theorem mapGet_append_none {α : Type} (m : List (String × α)) (k k' : String)
    (v : α) (h1 : mapGet m k' = none) (h2 : ¬ k = k') :
    mapGet (m ++ [(k, v)]) k' = none := by
  induction m with
  | nil =>
    simp only [List.nil_append, mapGet]
    rw [if_neg h2]
  | cons hd tl ih =>
    obtain ⟨k0, v0⟩ := hd
    by_cases h0 : k0 = k'
    · simp [mapGet, h0] at h1
    · simp only [mapGet, if_neg h0] at h1
      simp only [List.cons_append, mapGet, if_neg h0]
      exact ih h1

theorem createOffer_eq (participantSocketId : String) (stream : MediaStream)
    (s : HookState) (hsock : s.socketConnected = true)
    (hfresh : mapGet s.peerConnections participantSocketId = none) :
    createOffer participantSocketId stream s =
      { s with
          peerConnections :=
            s.peerConnections ++ [(participantSocketId, initiatorPC stream)],
          sent := s.sent ++ [OutEvent.offerMsg participantSocketId localOfferSdp] } := by
  simp [createOffer, hsock, mapSet_of_get_none _ _ _ hfresh]

theorem rosterLoop_eq (stream : MediaStream) (existing : List Participant) :
    ∀ (pm : List (String × Participant)) (s : HookState),
    s.socketConnected = true →
    (existing.map Participant.socketId).Nodup →
    (∀ p ∈ existing, mapGet s.peerConnections p.socketId = none) →
    (∀ p ∈ existing, mapGet pm p.socketId = none) →
    rosterLoop existing stream pm s =
      (pm ++ existing.map
         (fun p => (p.socketId, { p with audioEnabled := true, videoEnabled := true })),
       { s with
           peerConnections := s.peerConnections ++
             existing.map (fun p => (p.socketId, initiatorPC stream)),
           sent := s.sent ++
             existing.map (fun p => OutEvent.offerMsg p.socketId localOfferSdp) }) := by
  induction existing with
  | nil =>
    intro pm s _ _ _ _
    simp [rosterLoop]
  | cons p rest ih =>
    intro pm s hsock hnd hpc hpm
    have hfreshpc : mapGet s.peerConnections p.socketId = none :=
      hpc p (List.mem_cons_self _ _)
    have hfreshpm : mapGet pm p.socketId = none :=
      hpm p (List.mem_cons_self _ _)
    have hhead : p.socketId ∉ rest.map Participant.socketId :=
      (List.nodup_cons.mp (by simpa using hnd)).1
    have hco := createOffer_eq p.socketId stream s hsock hfreshpc
    have hrec := ih
      (pm ++ [(p.socketId, { p with audioEnabled := true, videoEnabled := true })])
      (createOffer p.socketId stream s)
      (by rw [hco]; exact hsock)
      ((List.nodup_cons.mp (by simpa using hnd)).2)
      (by
        intro q hq
        rw [hco]
        refine mapGet_append_none _ _ _ _ (hpc q (List.mem_cons_of_mem _ hq)) ?_
        intro hk
        exact hhead (hk ▸ List.mem_map_of_mem Participant.socketId hq)
      )
      (by
        intro q hq
        refine mapGet_append_none _ _ _ _ (hpm q (List.mem_cons_of_mem _ hq)) ?_
        intro hk
        exact hhead (hk ▸ List.mem_map_of_mem Participant.socketId hq)
      )
    rw [rosterLoop, mapSet_of_get_none _ _ _ hfreshpm, hrec, hco]
    simp [List.append_assoc]

/-- C2: processing a `room-participants` snapshot of N participants (with
distinct transport session ids, the local one not among them) creates
exactly one peer connection per listed participant, each in initiator shape
(local offer set), emits exactly one `offer` addressed to each listed
socket id, and `listParticipants` afterwards yields exactly those N entries
— the local participant is not in the list. -/
theorem roster_snapshot (existing : List Participant) (stream : MediaStream)
    (s : HookState) (localSid : String)
    (hsock : s.socketConnected = true)
    (hnd : (existing.map Participant.socketId).Nodup)
    (hpc : s.peerConnections = [])
    (hloc : localSid ∉ existing.map Participant.socketId) :
    listParticipants (handleRoomParticipants existing stream s) =
      existing.map (fun p => { p with audioEnabled := true, videoEnabled := true }) ∧
    (handleRoomParticipants existing stream s).peerConnections =
      existing.map (fun p => (p.socketId, initiatorPC stream)) ∧
    (handleRoomParticipants existing stream s).sent =
      s.sent ++ existing.map (fun p => OutEvent.offerMsg p.socketId localOfferSdp) ∧
    (listParticipants (handleRoomParticipants existing stream s)).length =
      existing.length ∧
    localSid ∉
      (listParticipants (handleRoomParticipants existing stream s)).map
        Participant.socketId := by
  have h := rosterLoop_eq stream existing [] s hsock hnd
    (by intro q _; rw [hpc]; rfl) (by intro q _; rfl)
  unfold handleRoomParticipants
  rw [h]
  refine ⟨?_, ?_, ?_, ?_, ?_⟩
  · simp [listParticipants, List.map_map]
  · simp [hpc]
  · rfl
  · simp [listParticipants]
  · simpa [listParticipants, List.map_map] using hloc

/-- C2 witness: the spec §8 scenario — roster `[{id: "P1", socketId:
"s1"}]` right after joining. -/
theorem roster_snapshot_witness :
    (handleRoomParticipants
        [{ id := "P1", name := "P1", socketId := "s1", stream := none,
           audioEnabled := true, videoEnabled := true }]
        { sid := 0, tracks := [{ kind := .audio, enabled := true, stopped := false }] }
        { participants := [], localStream :=
            some { sid := 0, tracks := [{ kind := .audio, enabled := true, stopped := false }] }
          isAudioEnabled := true, isVideoEnabled := true, isConnected := true
          socketConnected := true, peerConnections := [], initRef := true
          acquireCount := 1, sent := [] }).sent =
      [OutEvent.offerMsg "s1" localOfferSdp] := by
  have h := roster_snapshot
    [{ id := "P1", name := "P1", socketId := "s1", stream := none,
       audioEnabled := true, videoEnabled := true }]
    { sid := 0, tracks := [{ kind := .audio, enabled := true, stopped := false }] }
    { participants := [], localStream :=
        some { sid := 0, tracks := [{ kind := .audio, enabled := true, stopped := false }] }
      isAudioEnabled := true, isVideoEnabled := true, isConnected := true
      socketConnected := true, peerConnections := [], initRef := true
      acquireCount := 1, sent := [] }
    "sLocal" rfl (by decide) rfl (by decide)
  exact h.2.2.1

/-- C1: the code does not buffer early ICE candidates.  In the initiator
state awaiting the answer (remote description unset), an incoming
`ice-candidate` is passed straight to `addIceCandidate`, which rejects, the
rejection escapes, and the candidate is lost — the state has no buffer, and
after the answer is later applied the connection still holds no candidate;
a candidate from a sender with no registered connection is silently
dropped. -/
theorem ice_candidate_before_remote_description_lost :
    handleIceCandidate "s1" { payload := "c1" } awaitingAnswerState =
      (some NegotiationError.noRemoteDescription, awaitingAnswerState) ∧
    handleIceCandidate "s0" { payload := "c0" } awaitingAnswerState =
      (none, awaitingAnswerState) ∧
    (mapGet ((handleAnswer "s1" localAnswerSdp
          (handleIceCandidate "s1" { payload := "c1" } awaitingAnswerState).2).2.peerConnections)
        "s1").map RTCPeerConnection.addedCandidates = some [] := by
  decide

/-- C3 counterexample: ids `"a" < "b"`, yet when the smaller-id side — which
already sent its own offer — receives the offer from `"b"`, it does not
keep the initiator role: the code replaces its own connection in the
registry with a fresh one and emits an answer, so the smaller-id side
becomes the responder, contradicting the claimed tie-break. -/
theorem tiebreak_counterexample :
    ("a" : String).data < ("b" : String).data ∧
    (handleOffer "sb" localOfferSdp glareStateA).2.sent =
      glareStateA.sent ++ [OutEvent.answerMsg "sb" localAnswerSdp] ∧
    (mapGet (handleOffer "sb" localOfferSdp glareStateA).2.peerConnections "sb").map
        RTCPeerConnection.localDescription = some (some localAnswerSdp) := by
  decide

/-- C3 amended: the code implements no id-based tie-break.  Whatever the
lexicographic order of the participant ids, the side that receives an offer
always builds a fresh responder connection for the sender — replacing and
thereby discarding any connection (and pending offer) it had already
created toward that sender — and emits an answer; connections toward other
peers are untouched.  (Simultaneous initiation does not arise in the
intended operation, where only the joining side initiates.) -/
theorem handleOffer_always_responds (s : HookState) (sender : String) (offer : Sdp)
    (hwf : offer.wellFormed = true) (hk : offer.kind = SdpKind.offer)
    (hsock : s.socketConnected = true) :
    (handleOffer sender offer s).1 = none ∧
    mapGet (handleOffer sender offer s).2.peerConnections sender =
      some { newPeerConnection with
               localTracks := localTracksOf s
               remoteDescription := some offer
               localDescription := some localAnswerSdp } ∧
    (handleOffer sender offer s).2.sent =
      s.sent ++ [OutEvent.answerMsg sender localAnswerSdp] ∧
    ∀ k, k ≠ sender →
      mapGet (handleOffer sender offer s).2.peerConnections k =
        mapGet s.peerConnections k := by
  have e : handleOffer sender offer s =
      (none,
       { s with
           peerConnections :=
             mapSet (mapSet s.peerConnections sender
                 { newPeerConnection with localTracks := localTracksOf s }) sender
               { newPeerConnection with
                   localTracks := localTracksOf s
                   remoteDescription := some offer
                   localDescription := some localAnswerSdp },
           sent := s.sent ++ [OutEvent.answerMsg sender localAnswerSdp] }) := by
    simp [handleOffer, setRemoteDescription, newPeerConnection, hwf, hk, hsock]
  refine ⟨by rw [e], ?_, by rw [e], ?_⟩
  · rw [e]
    exact mapGet_mapSet_self _ _ _
  · intro k hkne
    rw [e]
    rw [mapGet_mapSet_ne _ _ _ _ hkne, mapGet_mapSet_ne _ _ _ _ hkne]

/-- C3 amended witness: the glare scenario of the counterexample, checked
against the amended statement. -/
theorem handleOffer_always_responds_witness :
    (handleOffer "sb" localOfferSdp glareStateA).1 = none ∧
    (handleOffer "sb" localOfferSdp glareStateA).2.sent =
      glareStateA.sent ++ [OutEvent.answerMsg "sb" localAnswerSdp] ∧
    mapGet (handleOffer "sb" localOfferSdp glareStateA).2.peerConnections "sx" =
      mapGet glareStateA.peerConnections "sx" := by
  have h := handleOffer_always_responds glareStateA "sb" localOfferSdp rfl rfl rfl
  exact ⟨h.1, h.2.2.1, h.2.2.2 "sx" (by decide)⟩

/-- C7 counterexample: a malformed answer for session `"s1"`.  The
rejection escapes the handler (first component `some _`, i.e. the error
does cross the registry boundary), and the offending session is neither
transitioned to closed nor removed: it stays registered with
`closed = false`. -/
theorem negotiation_error_not_contained :
    handleAnswer "s1" badAnswer twoSessionState =
      (some NegotiationError.malformedSdp, twoSessionState) ∧
    (mapGet (handleAnswer "s1" badAnswer twoSessionState).2.peerConnections "s1").map
        RTCPeerConnection.closed = some false := by
  decide

/-- C7 amended: when processing an offer, answer or candidate for one
session fails with a `NegotiationError`, the error escapes the handler
rather than being contained; the offending session is not transitioned to
closed and not removed — for `answer` / `ice-candidate` the state is
entirely unchanged, for `offer` the freshly inserted connection stays
registered; sibling sessions are unchanged. -/
theorem negotiation_error_escapes (s : HookState) (sender : String) (sdp : Sdp)
    (c : IceCand) (pc : RTCPeerConnection)
    (hpc : mapGet s.peerConnections sender = some pc)
    (hwf : sdp.wellFormed = false)
    (hrd : pc.remoteDescription = none) :
    handleAnswer sender sdp s = (some NegotiationError.malformedSdp, s) ∧
    handleIceCandidate sender c s = (some NegotiationError.noRemoteDescription, s) ∧
    handleOffer sender sdp s =
      (some NegotiationError.malformedSdp,
       { s with peerConnections := (mapSet s.peerConnections sender
           { newPeerConnection with localTracks := localTracksOf s }) }) ∧
    ∀ k, k ≠ sender →
      mapGet (handleOffer sender sdp s).2.peerConnections k =
        mapGet s.peerConnections k := by
  have hoff : handleOffer sender sdp s =
      (some NegotiationError.malformedSdp,
       { s with peerConnections := (mapSet s.peerConnections sender
           { newPeerConnection with localTracks := localTracksOf s }) }) := by
    simp [handleOffer, setRemoteDescription, hwf]
  refine ⟨?_, ?_, hoff, ?_⟩
  · simp [handleAnswer, hpc, setRemoteDescription, hwf]
  · simp [handleIceCandidate, hpc, addIceCandidate, hrd]
  · intro k hkne
    rw [hoff]
    exact mapGet_mapSet_ne _ _ _ _ hkne

/-- C7 amended witness: the malformed answer of the counterexample, checked
against the amended statement, with the sibling `"s2"` untouched. -/
theorem negotiation_error_escapes_witness :
    handleIceCandidate "s1" { payload := "c7" } twoSessionState =
      (some NegotiationError.noRemoteDescription, twoSessionState) ∧
    mapGet (handleOffer "s1" badAnswer twoSessionState).2.peerConnections "s2" =
      mapGet twoSessionState.peerConnections "s2" := by
  have h := negotiation_error_escapes twoSessionState "s1" badAnswer
    { payload := "c7" } (initiatorPC demoStream) (by decide) rfl rfl
  exact ⟨h.2.1, h.2.2.2 "s2" (by decide)⟩

end MeetJarvis
